import Mathlib

/-
Shallow embedding of the equipment-lending portal's availability core:
the Equipment ledger (backend/src/models/Equipment.js), the BorrowRequest
model (the Request mongoose schema) and the request lifecycle handlers of
backend/src/controllers/equipmentController.js.

Modelling conventions: mongoose documents are records, collections are
association lists keyed by numeric ids (MongoDB ObjectIds are opaque keys),
JS numbers in this domain are integers and are modelled as Int, dates are
Int timestamps (JS Date comparisons compare millisecond values), and each
HTTP handler is a function from the database state and its inputs to
`Except ApiError DB`: an `.ok` result carries the whole successor state,
an `.error` result carries the 4xx response and, as in the source where
every failing guard returns before any write, applies no mutation.
-/

/-- Status enum of the Request schema
(`enum: ['pending', 'approved', 'rejected', 'returned']`). -/
inductive Status where
  | pending
  | approved
  | rejected
  | returned
  deriving DecidableEq, Repr

/-- The string a Status interpolates to in an error message such as
`Cannot approve a ${request.status} request`. -/
def statusToString : Status → String
  | .pending => "pending"
  | .approved => "approved"
  | .rejected => "rejected"
  | .returned => "returned"

/-- Equipment document (backend/src/models/Equipment.js).  Only the fields
the availability core reads are typed precisely; enumerated string fields
stay plain strings. -/
structure EquipmentItem where
  name : String
  category : String
  description : String
  condition : String
  quantity : Int
  available : Int
  location : String
  deriving DecidableEq, Repr

/-- `equipmentSchema.methods.isAvailable`. -/
def EquipmentItem.isAvailable (e : EquipmentItem) : Bool :=
  e.available > 0

/-- `equipmentSchema.methods.decreaseAvailable`: throws when
`available < count`, otherwise `available -= count`. -/
def EquipmentItem.decreaseAvailable (e : EquipmentItem) (count : Int) :
    Except String EquipmentItem :=
  if e.available < count then .error "Not enough available quantity"
  else .ok { e with available := e.available - count }

/-- `equipmentSchema.methods.increaseAvailable`: throws when
`available + count > quantity`, otherwise `available += count`. -/
def EquipmentItem.increaseAvailable (e : EquipmentItem) (count : Int) :
    Except String EquipmentItem :=
  if e.available + count > e.quantity then .error "Cannot return more than total quantity"
  else .ok { e with available := e.available + count }

/-- The mongoose validators of the Equipment schema that constrain the
counters: `quantity` has `min: [1]`, `available` has `min: [0]` and the
custom validator `value <= this.quantity`.  These run on `Equipment.create`
(document validation) but not on `$inc` update operators. -/
def equipmentSchemaCheck (e : EquipmentItem) : Option String :=
  if e.quantity < 1 then some "Quantity must be at least 1"
  else if e.available < 0 then some "Available quantity cannot be negative"
  else if e.available > e.quantity then some "Available quantity cannot exceed total quantity"
  else none

/-- BorrowRequest document (the Request mongoose schema).  Status-specific
fields default to `null`, modelled as `Option`. -/
structure BorrowRequest where
  studentId : Nat
  studentName : String
  studentEmail : String
  equipmentId : Nat
  equipmentName : String
  quantity : Int
  borrowFromDate : Int
  borrowToDate : Int
  requestedDate : Int
  notes : String
  status : Status
  approvedBy : Option Nat := none
  approvedByName : Option String := none
  approvalDate : Option Int := none
  approvalNotes : Option String := none
  rejectionReason : Option String := none
  actualReturnDate : Option Int := none
  returnedCondition : Option String := none
  returnNotes : Option String := none
  deriving DecidableEq, Repr

/-- `requestSchema.methods.approve`: sets status `approved` and the four
approval fields, then saves. -/
def BorrowRequest.approve (r : BorrowRequest) (adminId : Nat) (adminName : String)
    (notes : String) (now : Int) : BorrowRequest :=
  { r with
    status := .approved
    approvedBy := some adminId
    approvedByName := some adminName
    approvalDate := some now
    approvalNotes := some notes }

/-- `requestSchema.methods.reject`: sets status `rejected` and the
rejection reason, then saves. -/
def BorrowRequest.reject (r : BorrowRequest) (reason : String) : BorrowRequest :=
  { r with
    status := .rejected
    rejectionReason := some reason }

/-- `requestSchema.methods.markReturned`: sets status `returned` and the
three return fields, then saves. -/
def BorrowRequest.markReturned (r : BorrowRequest) (condition : String)
    (notes : String) (now : Int) : BorrowRequest :=
  { r with
    status := .returned
    actualReturnDate := some now
    returnedCondition := some condition
    returnNotes := some notes }

/-- User document: only the fields the availability core reads. -/
structure User where
  name : String
  email : String
  role : String
  deriving DecidableEq, Repr

/-- The three MongoDB collections plus a fresh-id counter standing in for
ObjectId generation. -/
structure DB where
  equipment : List (Nat × EquipmentItem)
  requests : List (Nat × BorrowRequest)
  users : List (Nat × User)
  nextId : Nat
  deriving DecidableEq, Repr

/-- `Model.findById`: first entry with the given key. -/
def lookupId {α : Type} : List (Nat × α) → Nat → Option α
  | [], _ => none
  | p :: rest, k => if p.1 = k then some p.2 else lookupId rest k

/-- Point update of a keyed collection (the effect of `updateOne` /
`findByIdAndUpdate` / `document.save()` on the entry with that key). -/
def mapId {α : Type} (l : List (Nat × α)) (k : Nat) (f : α → α) : List (Nat × α) :=
  l.map fun p => if p.1 = k then (p.1, f p.2) else p

/-- The non-2xx responses the handlers produce: 404, handler-level 400, and
the 500 path a mongoose validation failure inside `create` falls into. -/
inductive ApiError where
  | notFound (message : String)
  | badRequest (message : String)
  | serverError (message : String)
  deriving DecidableEq, Repr

/-- Partial update payload of `PUT /api/equipment/:id` (absent JSON fields
are `none`). -/
structure EquipmentPatch where
  name : Option String := none
  category : Option String := none
  description : Option String := none
  condition : Option String := none
  quantity : Option Int := none
  available : Option Int := none
  location : Option String := none
  deriving DecidableEq, Repr

/-- The `...(field && { field })` spread in `updateEquipment`: a string
field is applied only when present and truthy (non-empty). -/
def applyStringField (cur : String) (patch : Option String) : String :=
  match patch with
  | some s => if s = "" then cur else s
  | none => cur

/-- `exports.updateEquipment`: 404 when the id is unknown; computes the
resulting pair with `!== undefined` defaulting; rejects only
`newAvailable > newQuantity`; then writes with `runValidators: false`, so
no schema validator constrains the written values. -/
def updateEquipment (db : DB) (id : Nat) (patch : EquipmentPatch) : Except ApiError DB :=
  match lookupId db.equipment id with
  | none => .error (.notFound "Equipment not found")
  | some equipment =>
    let newAvailable := patch.available.getD equipment.available
    let newQuantity := patch.quantity.getD equipment.quantity
    if newAvailable > newQuantity then
      .error (.badRequest "Available quantity cannot exceed total quantity")
    else
      let updated : EquipmentItem :=
        { name := applyStringField equipment.name patch.name
          category := applyStringField equipment.category patch.category
          description := applyStringField equipment.description patch.description
          condition := applyStringField equipment.condition patch.condition
          quantity := newQuantity
          available := newAvailable
          location := applyStringField equipment.location patch.location }
      .ok { db with equipment := mapId db.equipment id fun _ => updated }

/-- Creation payload of `POST /api/equipment`.  A JS-falsy required field
(missing or empty string; the number `quantity` is falsy exactly at 0) is
modelled by its default. -/
structure EquipmentPayload where
  name : String := ""
  category : String := ""
  description : String := ""
  condition : String := ""
  quantity : Int := 0
  available : Option Int := none
  location : String := ""
  deriving DecidableEq, Repr

/-- `exports.addEquipment`: truthiness check on the required fields, the
`available === undefined` check, the handler-level `available > quantity`
check, then `Equipment.create` which runs the schema validators (a
validator failure lands in the catch block as a 500). -/
def addEquipment (db : DB) (p : EquipmentPayload) : Except ApiError DB :=
  if p.name = "" ∨ p.category = "" ∨ p.description = "" ∨ p.condition = "" ∨
      p.quantity = 0 ∨ p.location = "" then
    .error (.badRequest "Please provide all required fields")
  else
    match p.available with
    | none => .error (.badRequest "Please provide available quantity")
    | some available =>
      if available > p.quantity then
        .error (.badRequest "Available quantity cannot exceed total quantity")
      else
        let item : EquipmentItem :=
          { name := p.name
            category := p.category
            description := p.description
            condition := p.condition
            quantity := p.quantity
            available := available
            location := p.location }
        match equipmentSchemaCheck item with
        | some m => .error (.serverError m)
        | none => .ok { db with
            equipment := db.equipment ++ [(db.nextId, item)]
            nextId := db.nextId + 1 }

/-- Creation payload of `POST /api/requests/create`.  Dates arrive already
parsed; id and numeric fields are falsy at 0, strings at "". -/
structure RequestPayload where
  studentId : Nat := 0
  studentName : String := ""
  studentEmail : String := ""
  equipmentId : Nat := 0
  equipmentName : String := ""
  quantity : Int := 0
  borrowFromDate : Int
  borrowToDate : Int
  notes : String := ""
  deriving DecidableEq, Repr

/-- Status filter `status: { $in: ['approved', 'pending'] }` of the overlap
query in `createRequest`. -/
def isActiveStatus : Status → Bool
  | .approved => true
  | .pending => true
  | _ => false

/-- The date condition of the overlap query:
`borrowFromDate: { $lte: toDate }, borrowToDate: { $gte: fromDate }`. -/
def overlapsRange (fromDate toDate : Int) (r : BorrowRequest) : Bool :=
  r.borrowFromDate ≤ toDate && r.borrowToDate ≥ fromDate

/-- The `Request.find` of the overlap query in `createRequest`: requests on
this equipment, pending or approved, whose date range meets the candidate
range. -/
def overlappingRequests (db : DB) (equipmentId : Nat) (fromDate toDate : Int) :
    List BorrowRequest :=
  ((db.requests.filter fun p =>
    p.2.equipmentId == equipmentId && isActiveStatus p.2.status &&
      overlapsRange fromDate toDate p.2).map Prod.snd)

/-- `overlappingRequests.reduce((total, req) => total + req.quantity, 0)`. -/
def totalRequestedQuantity (db : DB) (equipmentId : Nat) (fromDate toDate : Int) : Int :=
  (overlappingRequests db equipmentId fromDate toDate).foldl
    (fun total r => total + r.quantity) 0

/-- Step 2 of `createRequest` (after the equipment lookup): the immediate,
non-date-aware availability guards `available <= 0` and
`quantity > available`. -/
def immediateCheck (equipment : EquipmentItem) (quantity : Int) : Option ApiError :=
  if equipment.available ≤ 0 then
    some (.badRequest "Equipment is not available for borrowing")
  else if quantity > equipment.available then
    some (.badRequest ("Only " ++ toString equipment.available ++
      " units available for borrowing"))
  else none

/-- `exports.createRequest`: required-field truthiness check, positivity of
quantity, the two date guards against `today` (start of the current day),
equipment lookup, the immediate availability guards, then the overlap
accounting; on success inserts a fresh `pending` record. -/
def createRequest (db : DB) (p : RequestPayload) (today now : Int) : Except ApiError DB :=
  if p.studentId = 0 ∨ p.equipmentId = 0 ∨ p.quantity = 0 ∨ p.notes = "" then
    .error (.badRequest "Please provide all required fields")
  else if p.quantity < 1 then
    .error (.badRequest "Quantity must be a positive whole number")
  else if p.borrowFromDate < today then
    .error (.badRequest "Borrow date cannot be in the past")
  else if p.borrowToDate ≤ p.borrowFromDate then
    .error (.badRequest "Return date must be after borrow date")
  else
    match lookupId db.equipment p.equipmentId with
    | none => .error (.notFound "Equipment not found")
    | some equipment =>
      match immediateCheck equipment p.quantity with
      | some e => .error e
      | none =>
        let committed := totalRequestedQuantity db p.equipmentId
          p.borrowFromDate p.borrowToDate
        if committed + p.quantity > equipment.quantity then
          .error (.badRequest ("Only " ++ toString (equipment.quantity - committed) ++
            " units available for these dates"))
        else
          let request : BorrowRequest :=
            { studentId := p.studentId
              studentName := p.studentName
              studentEmail := p.studentEmail
              equipmentId := p.equipmentId
              equipmentName := p.equipmentName
              quantity := p.quantity
              borrowFromDate := p.borrowFromDate
              borrowToDate := p.borrowToDate
              requestedDate := now
              notes := p.notes
              status := .pending }
          .ok { db with
            requests := db.requests ++ [(db.nextId, request)]
            nextId := db.nextId + 1 }

/-- The `admin?.name || 'Admin'` computation of `approveRequest`: the
display name falls back to the literal `Admin` when the id does not resolve
(and, by JS falsiness, when the resolved name is the empty string). -/
def adminNameOf (db : DB) (adminId : Nat) : String :=
  match lookupId db.users adminId with
  | some admin => if admin.name = "" then "Admin" else admin.name
  | none => "Admin"

/-- `exports.approveRequest`: 404 on unknown request; status guard naming
the current status; `admin?.name || 'Admin'` fallback; the re-check that
the equipment still exists with `available ≥ quantity` (one merged guard in
the source); then the unguarded `$inc { available: -quantity }` followed by
`request.approve`. -/
def approveRequest (db : DB) (requestId adminId : Nat) (approvalNotes : String)
    (now : Int) : Except ApiError DB :=
  match lookupId db.requests requestId with
  | none => .error (.notFound "Request not found")
  | some request =>
    if request.status ≠ .pending then
      .error (.badRequest ("Cannot approve a " ++ statusToString request.status ++
        " request"))
    else
      let adminName := adminNameOf db adminId
      match lookupId db.equipment request.equipmentId with
      | none => .error (.badRequest "Requested quantity no longer available")
      | some equipment =>
        if equipment.available < request.quantity then
          .error (.badRequest "Requested quantity no longer available")
        else
          let db1 := { db with
            equipment := mapId db.equipment request.equipmentId fun e =>
              { e with available := e.available - request.quantity } }
          .ok { db1 with
            requests := mapId db1.requests requestId fun r =>
              r.approve adminId adminName approvalNotes now }

/-- `exports.rejectRequest`: 404 on unknown request; status guard naming
the current status; then `request.reject(reason)` with no equipment
access. -/
def rejectRequest (db : DB) (requestId : Nat) (reason : String) : Except ApiError DB :=
  match lookupId db.requests requestId with
  | none => .error (.notFound "Request not found")
  | some request =>
    if request.status ≠ .pending then
      .error (.badRequest ("Cannot reject a " ++ statusToString request.status ++
        " request"))
    else
      .ok { db with requests := mapId db.requests requestId fun r => r.reject reason }

/-- `exports.markReturned`: 404 on unknown request; fixed-message status
guard; then, only when the referenced equipment still resolves, the
unguarded `$inc { available: quantity }`; then `request.markReturned`. -/
def markReturned (db : DB) (requestId : Nat) (condition returnNotes : String)
    (now : Int) : Except ApiError DB :=
  match lookupId db.requests requestId with
  | none => .error (.notFound "Request not found")
  | some request =>
    if request.status ≠ .approved then
      .error (.badRequest "Only approved requests can be marked as returned")
    else
      let db1 :=
        match lookupId db.equipment request.equipmentId with
        | some _ => { db with
            equipment := mapId db.equipment request.equipmentId fun e =>
              { e with available := e.available + request.quantity } }
        | none => db
      .ok { db1 with
        requests := mapId db1.requests requestId fun r =>
          r.markReturned condition returnNotes now }

/-- The ledger invariant of the spec for one item. -/
def EquipmentItem.invariantHolds (e : EquipmentItem) : Prop :=
  0 ≤ e.available ∧ e.available ≤ e.quantity

instance (e : EquipmentItem) : Decidable e.invariantHolds := by
  unfold EquipmentItem.invariantHolds
  infer_instance

/-- The ledger invariant over the whole equipment collection. -/
def ledgerInvariant (db : DB) : Prop :=
  ∀ p ∈ db.equipment, p.2.invariantHolds

instance (db : DB) : Decidable (ledgerInvariant db) := by
  unfold ledgerInvariant
  infer_instance

/-- Whether an error message names a given status (the status string occurs
contiguously in the message). -/
def mentions (needle haystack : String) : Prop :=
  List.IsInfix needle.data haystack.data

instance (needle haystack : String) : Decidable (mentions needle haystack) := by
  unfold mentions
  infer_instance

/-! ### Association-list lemmas -/

theorem lookupId_mapId_self {α : Type} (l : List (Nat × α)) (k : Nat) (f : α → α) :
    lookupId (mapId l k f) k = (lookupId l k).map f := by
  induction l with
  | nil => rfl
  | cons p rest ih =>
    simp only [mapId, List.map_cons] at ih ⊢
    by_cases h : p.1 = k
    · simp [lookupId, h]
    · simp only [if_neg h, lookupId, h, if_false]
      exact ih

theorem immediateCheck_eq_none_iff (e : EquipmentItem) (q : Int) :
    immediateCheck e q = none ↔ 0 < e.available ∧ q ≤ e.available := by
  unfold immediateCheck
  split_ifs with h1 h2 <;> simp <;> omega

/-! ### Concrete fixtures -/

/-- Fixture: a two-unit item, both units currently available. -/
def tentItem : EquipmentItem :=
  { name := "Tent"
    category := "Sports"
    description := "Four person tent"
    condition := "Good"
    quantity := 2
    available := 2
    location := "Store A" }

/-- Fixture: an approved one-unit request on equipment 1. -/
def approvedReq : BorrowRequest :=
  { studentId := 7
    studentName := "Sam"
    studentEmail := "sam@campus.edu"
    equipmentId := 1
    equipmentName := "Tent"
    quantity := 1
    borrowFromDate := 10
    borrowToDate := 12
    requestedDate := 5
    notes := "field trip"
    status := .approved }

/-- Fixture: the same request still pending. -/
def pendingReq : BorrowRequest :=
  { approvedReq with status := .pending }

/-- Fixture database holding `tentItem` (satisfying the ledger invariant)
and one approved request on it. -/
def overReturnDB : DB :=
  { equipment := [(1, tentItem)]
    requests := [(1, approvedReq)]
    users := []
    nextId := 2 }

/-- Fixture database holding `tentItem` and one pending request on it. -/
def pendingDB : DB :=
  { equipment := [(1, tentItem)]
    requests := [(1, pendingReq)]
    users := []
    nextId := 2 }

/-! ### C1 -/

/-- Claim C1 evidence of failure: from a state satisfying the ledger
invariant (item with `quantity = 2`, `available = 2`, one approved request
of quantity 1 on it), `markReturned` succeeds and its unconditional
`$inc { available: quantity }` drives `available` to 3 > `quantity` = 2,
so the mutation does not preserve `0 ≤ available ≤ quantity`. -/
theorem C1_markReturned_breaks_invariant :
    ledgerInvariant overReturnDB ∧
    ∃ db', markReturned overReturnDB 1 "Good" "" 20 = .ok db' ∧
      lookupId db'.equipment 1 = some { tentItem with available := 3 } ∧
      ¬ ledgerInvariant db' := by
  exact ⟨by decide, _, rfl, rfl, by decide⟩

/-! ### C3 -/

/-- Claim C3 counterexample: `markReturned` attempted on a request whose
current status is `pending` does fail, but with the fixed message
"Only approved requests can be marked as returned", which does not name
the current status, contrary to the claim. -/
theorem C3_counterexample :
    markReturned pendingDB 1 "Good" "" 20 =
      .error (.badRequest "Only approved requests can be marked as returned") ∧
    ¬ mentions (statusToString .pending)
      "Only approved requests can be marked as returned" := by
  exact ⟨rfl, by decide⟩

/-! ### C5 -/

/-- Fixture: a patch setting `available` to −1. -/
def negativeAvailablePatch : EquipmentPatch :=
  { available := some (-1) }

/-- Claim C5 counterexample: updating `tentItem` with `available := -1`
violates the invariant of the claim, yet `updateEquipment` succeeds (the
handler only rejects `newAvailable > newQuantity` and writes with
`runValidators: false`), leaving `available = -1` in the store. -/
theorem C5_counterexample :
    ∃ db', updateEquipment overReturnDB 1 negativeAvailablePatch = .ok db' ∧
      lookupId db'.equipment 1 = some { tentItem with available := -1 } ∧
      ¬ ledgerInvariant db' := by
  exact ⟨_, rfl, rfl, by decide⟩

/-! ### Success-path lemmas for the three lifecycle transitions -/

theorem approveRequest_ok (db : DB) (requestId adminId : Nat) (anotes : String)
    (now : Int) (r : BorrowRequest) (e : EquipmentItem)
    (hr : lookupId db.requests requestId = some r) (hp : r.status = .pending)
    (he : lookupId db.equipment r.equipmentId = some e)
    (hav : r.quantity ≤ e.available) :
    approveRequest db requestId adminId anotes now = .ok { db with
      equipment := mapId db.equipment r.equipmentId fun x =>
        { x with available := x.available - r.quantity }
      requests := mapId db.requests requestId fun x =>
        x.approve adminId (adminNameOf db adminId) anotes now } := by
  simp only [approveRequest, hr, he]
  rw [if_neg (by simp [hp]), if_neg (by omega)]

theorem rejectRequest_ok (db : DB) (requestId : Nat) (reason : String)
    (r : BorrowRequest)
    (hr : lookupId db.requests requestId = some r) (hp : r.status = .pending) :
    rejectRequest db requestId reason = .ok { db with
      requests := mapId db.requests requestId fun x => x.reject reason } := by
  simp only [rejectRequest, hr]
  rw [if_neg (by simp [hp])]

theorem markReturned_ok (db : DB) (requestId : Nat) (condition rnotes : String)
    (now : Int) (r : BorrowRequest) (e : EquipmentItem)
    (hr : lookupId db.requests requestId = some r) (ha : r.status = .approved)
    (he : lookupId db.equipment r.equipmentId = some e) :
    markReturned db requestId condition rnotes now = .ok { db with
      equipment := mapId db.equipment r.equipmentId fun x =>
        { x with available := x.available + r.quantity }
      requests := mapId db.requests requestId fun x =>
        x.markReturned condition rnotes now } := by
  simp only [markReturned, hr, he]
  rw [if_neg (by simp [ha])]

/-! ### C8 -/

/-- Claim C8: rejecting a pending request succeeds, sets the status to
`rejected`, records the reason, and leaves the equipment collection (the
Ledger) and the users untouched — `available` and `quantity` of every item
keep their prior values. -/
theorem C8_reject_frame (db : DB) (requestId : Nat) (reason : String)
    (r : BorrowRequest)
    (hr : lookupId db.requests requestId = some r) (hp : r.status = .pending) :
    ∃ db', rejectRequest db requestId reason = .ok db' ∧
      db'.equipment = db.equipment ∧
      db'.users = db.users ∧
      lookupId db'.requests requestId = some (r.reject reason) ∧
      (r.reject reason).status = .rejected ∧
      (r.reject reason).rejectionReason = some reason := by
  refine ⟨_, rejectRequest_ok db requestId reason r hr hp, rfl, rfl, ?_, rfl, rfl⟩
  rw [lookupId_mapId_self, hr]
  rfl

/-- Witness for C8 on the concrete pending fixture. -/
theorem C8_reject_frame_witness :
    ∃ db', rejectRequest pendingDB 1 "late request" = .ok db' ∧
      db'.equipment = pendingDB.equipment ∧
      db'.users = pendingDB.users ∧
      lookupId db'.requests 1 = some (pendingReq.reject "late request") ∧
      (pendingReq.reject "late request").status = .rejected ∧
      (pendingReq.reject "late request").rejectionReason = some "late request" :=
  C8_reject_frame pendingDB 1 "late request" pendingReq rfl rfl

/-! ### C9 -/

/-- Fixture: an approved request referencing equipment id 99, which is
absent from the equipment collection. -/
def orphanReq : BorrowRequest :=
  { approvedReq with equipmentId := 99 }

/-- Fixture database for the orphaned approved request. -/
def orphanDB : DB :=
  { equipment := [(1, tentItem)]
    requests := [(1, orphanReq)]
    users := []
    nextId := 2 }

/-- Claim C9: `markReturned` on an approved request whose equipment id no
longer resolves still succeeds (no `NotFoundError`), records the return
fields with status `returned`, and performs no Ledger mutation. -/
theorem C9_return_orphan (db : DB) (requestId : Nat) (condition rnotes : String)
    (now : Int) (r : BorrowRequest)
    (hr : lookupId db.requests requestId = some r)
    (ha : r.status = .approved)
    (he : lookupId db.equipment r.equipmentId = none) :
    ∃ db', markReturned db requestId condition rnotes now = .ok db' ∧
      db'.equipment = db.equipment ∧
      db'.users = db.users ∧
      lookupId db'.requests requestId = some (r.markReturned condition rnotes now) ∧
      (r.markReturned condition rnotes now).status = .returned := by
  refine ⟨{ db with requests := mapId db.requests requestId fun x =>
      x.markReturned condition rnotes now }, ?_, rfl, rfl, ?_, rfl⟩
  · simp only [markReturned, hr, he]
    rw [if_neg (by simp [ha])]
  · rw [lookupId_mapId_self, hr]
    rfl

/-- Witness for C9 on the orphaned fixture. -/
theorem C9_return_orphan_witness :
    ∃ db', markReturned orphanDB 1 "Fair" "scratched" 30 = .ok db' ∧
      db'.equipment = orphanDB.equipment ∧
      db'.users = orphanDB.users ∧
      lookupId db'.requests 1 = some (orphanReq.markReturned "Fair" "scratched" 30) ∧
      (orphanReq.markReturned "Fair" "scratched" 30).status = .returned :=
  C9_return_orphan orphanDB 1 "Fair" "scratched" 30 orphanReq rfl rfl rfl

/-! ### C3 -/

/-- Claim C3 (amended): approve and reject require status `pending` and
markReturned requires status `approved`; attempted from any other status
each operation fails with a 400 error and, every failing guard returning
before any write, applies no mutation.  The approve and reject errors name
the current status; markReturned's error is the fixed message
"Only approved requests can be marked as returned". -/
theorem C3_status_guards (db : DB) (requestId adminId : Nat)
    (anotes reason condition rnotes : String) (now : Int) (r : BorrowRequest)
    (hr : lookupId db.requests requestId = some r) :
    (r.status ≠ .pending →
      approveRequest db requestId adminId anotes now =
        .error (.badRequest ("Cannot approve a " ++ statusToString r.status ++
          " request")) ∧
      mentions (statusToString r.status)
        ("Cannot approve a " ++ statusToString r.status ++ " request")) ∧
    (r.status ≠ .pending →
      rejectRequest db requestId reason =
        .error (.badRequest ("Cannot reject a " ++ statusToString r.status ++
          " request")) ∧
      mentions (statusToString r.status)
        ("Cannot reject a " ++ statusToString r.status ++ " request")) ∧
    (r.status ≠ .approved →
      markReturned db requestId condition rnotes now =
        .error (.badRequest "Only approved requests can be marked as returned")) := by
  refine ⟨fun h => ⟨?_, ?_⟩, fun h => ⟨?_, ?_⟩, fun h => ?_⟩
  · simp only [approveRequest, hr]
    rw [if_pos h]
  · cases r.status <;> decide
  · simp only [rejectRequest, hr]
    rw [if_pos h]
  · cases r.status <;> decide
  · simp only [markReturned, hr]
    rw [if_pos h]

/-- Fixture: the request already returned. -/
def returnedReq : BorrowRequest :=
  { approvedReq with status := .returned }

/-- Fixture database with a returned request. -/
def returnedDB : DB :=
  { equipment := [(1, tentItem)]
    requests := [(1, returnedReq)]
    users := []
    nextId := 2 }

/-- Witness for C3: approving an already-returned request. -/
theorem C3_status_guards_witness :
    approveRequest returnedDB 1 5 "" 20 =
      .error (.badRequest ("Cannot approve a " ++
        statusToString returnedReq.status ++ " request")) :=
  ((C3_status_guards returnedDB 1 5 "" "" "Good" "" 20 returnedReq rfl).1
    (by decide)).1

/-! ### C4 -/

/-- Claim C4: on a pending request whose equipment resolves with enough
availability, approve succeeds (subtracting the request's quantity from
`available`) and a subsequent markReturned succeeds (adding the same
quantity back), so the equipment's `available` after the round trip equals
its value before the approve. -/
theorem C4_round_trip (db : DB) (requestId adminId : Nat)
    (anotes condition rnotes : String) (t1 t2 : Int)
    (r : BorrowRequest) (e : EquipmentItem)
    (hr : lookupId db.requests requestId = some r) (hp : r.status = .pending)
    (he : lookupId db.equipment r.equipmentId = some e)
    (hav : r.quantity ≤ e.available) :
    ∃ db1 db2, approveRequest db requestId adminId anotes t1 = .ok db1 ∧
      markReturned db1 requestId condition rnotes t2 = .ok db2 ∧
      (lookupId db1.equipment r.equipmentId).map EquipmentItem.available =
        some (e.available - r.quantity) ∧
      (lookupId db2.equipment r.equipmentId).map EquipmentItem.available =
        some e.available := by
  have h1 := approveRequest_ok db requestId adminId anotes t1 r e hr hp he hav
  have hr1 : lookupId (mapId db.requests requestId fun x =>
      x.approve adminId (adminNameOf db adminId) anotes t1) requestId =
      some (r.approve adminId (adminNameOf db adminId) anotes t1) := by
    rw [lookupId_mapId_self, hr]
    rfl
  have he1 : lookupId (mapId db.equipment r.equipmentId fun x =>
      { x with available := x.available - r.quantity }) r.equipmentId =
      some { e with available := e.available - r.quantity } := by
    rw [lookupId_mapId_self, he]
    rfl
  have h2 := markReturned_ok
    { db with
      equipment := mapId db.equipment r.equipmentId fun x =>
        { x with available := x.available - r.quantity }
      requests := mapId db.requests requestId fun x =>
        x.approve adminId (adminNameOf db adminId) anotes t1 }
    requestId condition rnotes t2
    (r.approve adminId (adminNameOf db adminId) anotes t1)
    { e with available := e.available - r.quantity }
    hr1 rfl he1
  refine ⟨_, _, h1, h2, ?_, ?_⟩
  · show (lookupId (mapId db.equipment r.equipmentId fun x =>
        { x with available := x.available - r.quantity }) r.equipmentId).map
        EquipmentItem.available = some (e.available - r.quantity)
    rw [he1]
    rfl
  · show (lookupId (mapId (mapId db.equipment r.equipmentId fun x =>
        { x with available := x.available - r.quantity }) r.equipmentId fun x =>
        { x with available := x.available + r.quantity }) r.equipmentId).map
        EquipmentItem.available = some e.available
    rw [lookupId_mapId_self, he1]
    show some (e.available - r.quantity + r.quantity) = some e.available
    have hc : e.available - r.quantity + r.quantity = e.available := by omega
    rw [hc]

/-- Witness for C4 on the pending fixture (quantity 1 out of 2 available). -/
theorem C4_round_trip_witness :
    ∃ db1 db2, approveRequest pendingDB 1 5 "ok" 40 = .ok db1 ∧
      markReturned db1 1 "Good" "" 60 = .ok db2 ∧
      (lookupId db1.equipment pendingReq.equipmentId).map EquipmentItem.available =
        some (tentItem.available - pendingReq.quantity) ∧
      (lookupId db2.equipment pendingReq.equipmentId).map EquipmentItem.available =
        some tentItem.available :=
  C4_round_trip pendingDB 1 5 "ok" "Good" "" 40 60 pendingReq tentItem rfl rfl rfl
    (by decide)

/-! ### C2 -/

/-- Claim C2: once the prior validations pass (required fields, positive
integer quantity, valid dates, equipment found, immediate availability),
request creation is accepted iff committed + requestedQuantity ≤
item.quantity, where committed sums `quantity` over the pending/approved
requests on the equipment whose inclusive range [a,b] satisfies a ≤ to and
b ≥ from; on rejection the message reports item.quantity − committed as the
number of units still obtainable for those dates. -/
theorem C2_overlap_accounting (db : DB) (p : RequestPayload) (today now : Int)
    (e : EquipmentItem)
    (h1 : p.studentId ≠ 0) (h2 : p.equipmentId ≠ 0) (h3 : p.quantity ≠ 0)
    (h4 : p.notes ≠ "") (hq : 1 ≤ p.quantity)
    (hfrom : today ≤ p.borrowFromDate) (hto : p.borrowFromDate < p.borrowToDate)
    (he : lookupId db.equipment p.equipmentId = some e)
    (himm : immediateCheck e p.quantity = none) :
    ((∃ db', createRequest db p today now = .ok db') ↔
      totalRequestedQuantity db p.equipmentId p.borrowFromDate p.borrowToDate +
        p.quantity ≤ e.quantity) ∧
    (e.quantity < totalRequestedQuantity db p.equipmentId p.borrowFromDate
        p.borrowToDate + p.quantity →
      createRequest db p today now = .error (.badRequest ("Only " ++
        toString (e.quantity - totalRequestedQuantity db p.equipmentId
          p.borrowFromDate p.borrowToDate) ++
        " units available for these dates"))) := by
  have hcond : ¬ (p.studentId = 0 ∨ p.equipmentId = 0 ∨ p.quantity = 0 ∨
      p.notes = "") := by
    push_neg
    exact ⟨h1, h2, h3, h4⟩
  have hq1 : ¬ p.quantity < 1 := by omega
  have hf : ¬ p.borrowFromDate < today := by omega
  have ht : ¬ p.borrowToDate ≤ p.borrowFromDate := by omega
  simp only [createRequest, if_neg hcond, if_neg hq1, if_neg hf, if_neg ht, he,
    himm]
  by_cases hcap : totalRequestedQuantity db p.equipmentId p.borrowFromDate
      p.borrowToDate + p.quantity > e.quantity
  · rw [if_pos hcap]
    refine ⟨?_, fun _ => rfl⟩
    constructor
    · rintro ⟨db', hdb⟩
      exact absurd hdb (by simp)
    · intro hle
      omega
  · rw [if_neg hcap]
    refine ⟨?_, fun hlt => absurd hlt (by omega)⟩
    constructor
    · intro _
      omega
    · intro _
      exact ⟨_, rfl⟩

/-- Fixture payload: two units of equipment 1 for days 10 to 12. -/
def twoUnitPayload : RequestPayload :=
  { studentId := 7
    studentName := "Sam"
    studentEmail := "sam@campus.edu"
    equipmentId := 1
    equipmentName := "Tent"
    quantity := 2
    borrowFromDate := 10
    borrowToDate := 12
    notes := "field trip" }

/-- Witness for C2: against `pendingDB` (quantity 2, one overlapping
pending request of quantity 1) a request for 2 units is rejected reporting
2 − 1 = 1 unit still obtainable. -/
theorem C2_overlap_accounting_witness :
    createRequest pendingDB twoUnitPayload 0 50 = .error (.badRequest ("Only " ++
      toString (tentItem.quantity - totalRequestedQuantity pendingDB
        twoUnitPayload.equipmentId twoUnitPayload.borrowFromDate
        twoUnitPayload.borrowToDate) ++
      " units available for these dates")) :=
  (C2_overlap_accounting pendingDB twoUnitPayload 0 50 tentItem (by decide)
    (by decide) (by decide) (by decide) (by decide) (by decide) (by decide)
    rfl rfl).2 (by decide)

/-! ### C5 (amended) -/

/-- Claim C5 (amended): `updateEquipment` evaluates its check on the
resulting quantity/available pair, a field missing from the patch
defaulting to the item's existing value; it fails with a NotFoundError when
the id is unknown and with a ValidationError exactly when the resulting
available exceeds the resulting quantity — resulting `available < 0` or
`quantity < 1` are accepted, validators being disabled during update — and
an error applies no mutation. -/
theorem C5_update_semantics (db : DB) (id : Nat) (patch : EquipmentPatch) :
    (lookupId db.equipment id = none →
      updateEquipment db id patch = .error (.notFound "Equipment not found")) ∧
    (∀ e, lookupId db.equipment id = some e →
      (patch.quantity.getD e.quantity < patch.available.getD e.available →
        updateEquipment db id patch =
          .error (.badRequest "Available quantity cannot exceed total quantity")) ∧
      (patch.available.getD e.available ≤ patch.quantity.getD e.quantity →
        ∃ db', updateEquipment db id patch = .ok db' ∧
          ∃ e2, lookupId db'.equipment id = some e2 ∧
            e2.available = patch.available.getD e.available ∧
            e2.quantity = patch.quantity.getD e.quantity)) := by
  refine ⟨fun h => ?_, fun e he => ⟨fun hlt => ?_, fun hle => ?_⟩⟩
  · simp only [updateEquipment, h]
  · simp only [updateEquipment, he]
    rw [if_pos hlt]
  · simp only [updateEquipment, he]
    rw [if_neg (by omega)]
    refine ⟨_, rfl,
      { name := applyStringField e.name patch.name
        category := applyStringField e.category patch.category
        description := applyStringField e.description patch.description
        condition := applyStringField e.condition patch.condition
        quantity := patch.quantity.getD e.quantity
        available := patch.available.getD e.available
        location := applyStringField e.location patch.location }, ?_, rfl, rfl⟩
    rw [lookupId_mapId_self, he]
    rfl

/-- Witness for C5: unknown id 99 yields NotFound; the negative-available
patch on id 1 is accepted with `available = -1`, `quantity = 2`. -/
theorem C5_update_semantics_witness :
    updateEquipment pendingDB 99 negativeAvailablePatch =
      .error (.notFound "Equipment not found") ∧
    ∃ db', updateEquipment pendingDB 1 negativeAvailablePatch = .ok db' ∧
      ∃ e2, lookupId db'.equipment 1 = some e2 ∧
        e2.available = negativeAvailablePatch.available.getD tentItem.available ∧
        e2.quantity = negativeAvailablePatch.quantity.getD tentItem.quantity :=
  ⟨(C5_update_semantics pendingDB 99 negativeAvailablePatch).1 rfl,
    ((C5_update_semantics pendingDB 1 negativeAvailablePatch).2 tentItem rfl).2
      (by decide)⟩

/-! ### C6 -/

/-- Claim C6: independently of the date-overlap accounting, a request
creation only succeeds when the immediate `available` is positive and at
least the requested quantity; a quantity exactly equal to `available`
passes the immediate-availability check, while `available + 1` fails it. -/
theorem C6_immediate_availability (db : DB) (p : RequestPayload)
    (today now : Int) (e : EquipmentItem)
    (h1 : p.studentId ≠ 0) (h2 : p.equipmentId ≠ 0) (h3 : p.quantity ≠ 0)
    (h4 : p.notes ≠ "") (hq : 1 ≤ p.quantity)
    (hfrom : today ≤ p.borrowFromDate) (hto : p.borrowFromDate < p.borrowToDate)
    (he : lookupId db.equipment p.equipmentId = some e) :
    ((∃ db', createRequest db p today now = .ok db') →
      0 < e.available ∧ p.quantity ≤ e.available) ∧
    (p.quantity = e.available → immediateCheck e p.quantity = none) ∧
    (p.quantity = e.available + 1 → immediateCheck e p.quantity ≠ none) := by
  have hcond : ¬ (p.studentId = 0 ∨ p.equipmentId = 0 ∨ p.quantity = 0 ∨
      p.notes = "") := by
    push_neg
    exact ⟨h1, h2, h3, h4⟩
  have hq1 : ¬ p.quantity < 1 := by omega
  have hf : ¬ p.borrowFromDate < today := by omega
  have ht : ¬ p.borrowToDate ≤ p.borrowFromDate := by omega
  refine ⟨?_, fun hqe => ?_, fun hqe => ?_⟩
  · rintro ⟨db', hdb⟩
    rw [← immediateCheck_eq_none_iff]
    cases hic : immediateCheck e p.quantity with
    | none => rfl
    | some a =>
      simp only [createRequest, if_neg hcond, if_neg hq1, if_neg hf, if_neg ht,
        he, hic] at hdb
      exact Except.noConfusion hdb
  · rw [immediateCheck_eq_none_iff]
    omega
  · rw [Ne, immediateCheck_eq_none_iff]
    omega

/-- Fixture payload: three units, one more than `tentItem.available`. -/
def threeUnitPayload : RequestPayload :=
  { twoUnitPayload with quantity := 3 }

/-- Witness for C6: quantity 2 = available passes the immediate check,
quantity 3 = available + 1 fails it. -/
theorem C6_immediate_availability_witness :
    immediateCheck tentItem 2 = none ∧ immediateCheck tentItem 3 ≠ none :=
  ⟨(C6_immediate_availability pendingDB twoUnitPayload 0 50 tentItem (by decide)
      (by decide) (by decide) (by decide) (by decide) (by decide) (by decide)
      rfl).2.1 rfl,
    (C6_immediate_availability pendingDB threeUnitPayload 0 50 tentItem
      (by decide) (by decide) (by decide) (by decide) (by decide) (by decide)
      (by decide) rfl).2.2 rfl⟩

/-! ### C7 -/

/-- Claim C7: with the non-date validations passing, a payload whose
borrowFromDate is earlier than today is rejected, and one whose
borrowToDate equals borrowFromDate is rejected (the return date must be
strictly after the borrow date); an error means no request record is
created. -/
theorem C7_date_validation (db : DB) (p : RequestPayload) (today now : Int)
    (h1 : p.studentId ≠ 0) (h2 : p.equipmentId ≠ 0) (h3 : p.quantity ≠ 0)
    (h4 : p.notes ≠ "") (hq : 1 ≤ p.quantity) :
    (p.borrowFromDate < today →
      createRequest db p today now =
        .error (.badRequest "Borrow date cannot be in the past")) ∧
    (today ≤ p.borrowFromDate → p.borrowToDate = p.borrowFromDate →
      createRequest db p today now =
        .error (.badRequest "Return date must be after borrow date")) := by
  have hcond : ¬ (p.studentId = 0 ∨ p.equipmentId = 0 ∨ p.quantity = 0 ∨
      p.notes = "") := by
    push_neg
    exact ⟨h1, h2, h3, h4⟩
  have hq1 : ¬ p.quantity < 1 := by omega
  refine ⟨fun hpast => ?_, fun hok heq => ?_⟩
  · simp only [createRequest, if_neg hcond, if_neg hq1, if_pos hpast]
  · simp only [createRequest, if_neg hcond, if_neg hq1,
      if_neg (show ¬ p.borrowFromDate < today by omega),
      if_pos (show p.borrowToDate ≤ p.borrowFromDate by omega)]

/-- Witness for C7: a from-date in the past, and an empty date range. -/
theorem C7_date_validation_witness :
    createRequest pendingDB { twoUnitPayload with borrowFromDate := 5 } 6 50 =
      .error (.badRequest "Borrow date cannot be in the past") ∧
    createRequest pendingDB { twoUnitPayload with borrowToDate := 10 } 6 50 =
      .error (.badRequest "Return date must be after borrow date") :=
  ⟨(C7_date_validation pendingDB { twoUnitPayload with borrowFromDate := 5 } 6 50
      (by decide) (by decide) (by decide) (by decide) (by decide)).1 (by decide),
    (C7_date_validation pendingDB { twoUnitPayload with borrowToDate := 10 } 6 50
      (by decide) (by decide) (by decide) (by decide) (by decide)).2 (by decide)
      rfl⟩

/-! ### C10 -/

/-- Claim C10: when a pending request is approved and the availability
re-check passes, the recorded `approvedByName` is the literal "Admin" when
the approver's id resolves to no User record, and the resolved user's
(nonempty) name otherwise. -/
theorem C10_admin_name_fallback (db : DB) (requestId adminId : Nat)
    (anotes : String) (now : Int) (r : BorrowRequest) (e : EquipmentItem)
    (hr : lookupId db.requests requestId = some r) (hp : r.status = .pending)
    (he : lookupId db.equipment r.equipmentId = some e)
    (hav : r.quantity ≤ e.available) :
    (lookupId db.users adminId = none →
      ∃ db', approveRequest db requestId adminId anotes now = .ok db' ∧
        (lookupId db'.requests requestId).bind BorrowRequest.approvedByName =
          some "Admin") ∧
    (∀ u, lookupId db.users adminId = some u → u.name ≠ "" →
      ∃ db', approveRequest db requestId adminId anotes now = .ok db' ∧
        (lookupId db'.requests requestId).bind BorrowRequest.approvedByName =
          some u.name) := by
  have h1 := approveRequest_ok db requestId adminId anotes now r e hr hp he hav
  refine ⟨fun hu => ⟨_, h1, ?_⟩, fun u hu hne => ⟨_, h1, ?_⟩⟩
  · show (lookupId (mapId db.requests requestId fun x =>
        x.approve adminId (adminNameOf db adminId) anotes now) requestId).bind
        BorrowRequest.approvedByName = some "Admin"
    rw [lookupId_mapId_self, hr,
      show adminNameOf db adminId = "Admin" by simp only [adminNameOf, hu]]
    rfl
  · show (lookupId (mapId db.requests requestId fun x =>
        x.approve adminId (adminNameOf db adminId) anotes now) requestId).bind
        BorrowRequest.approvedByName = some u.name
    rw [lookupId_mapId_self, hr,
      show adminNameOf db adminId = u.name by
        simp only [adminNameOf, hu]
        rw [if_neg hne]]
    rfl

/-- Fixture: a named admin user. -/
def adminUser : User :=
  { name := "Dana"
    email := "dana@campus.edu"
    role := "admin" }

/-- Fixture database: pending request plus one admin user with id 5. -/
def pendingWithAdminDB : DB :=
  { equipment := [(1, tentItem)]
    requests := [(1, pendingReq)]
    users := [(5, adminUser)]
    nextId := 2 }

/-- Witness for C10: approver id 9 resolves to no user and records
"Admin"; approver id 5 resolves to Dana and records her name. -/
theorem C10_admin_name_fallback_witness :
    (∃ db', approveRequest pendingWithAdminDB 1 9 "" 40 = .ok db' ∧
      (lookupId db'.requests 1).bind BorrowRequest.approvedByName =
        some "Admin") ∧
    (∃ db', approveRequest pendingWithAdminDB 1 5 "" 40 = .ok db' ∧
      (lookupId db'.requests 1).bind BorrowRequest.approvedByName =
        some adminUser.name) :=
  ⟨(C10_admin_name_fallback pendingWithAdminDB 1 9 "" 40 pendingReq tentItem rfl
      rfl rfl (by decide)).1 rfl,
    (C10_admin_name_fallback pendingWithAdminDB 1 5 "" 40 pendingReq tentItem rfl
      rfl rfl (by decide)).2 adminUser rfl (by decide)⟩
